import Mathlib

/-!
# Verification of the Biometric-DB personnel-records service

Shallow embedding of `src/server.js` (two revisions of the same Express +
PostgreSQL service: the `/` revision with ZKTeco device endpoints, and the
`/api` CRUD revision).  The relational store is modelled as Lean lists of
records; each HTTP handler becomes a function from the store (plus the
request data and the current time) to the new store and a response value.

Modelling conventions, each noted again at the definition it concerns:
* SQL `NULL` is `Option.none`; JS `undefined` request fields are also `none`
  (the pg driver sends both as SQL NULL).
* `DECIMAL(10,2)` (`net_salary`) is an exact integer count of cents.
  JS `parseFloat` of a SQL NULL yields `NaN`; `NaN` is modelled as `none`
  and its propagation through `+` by an `Option`-propagating addition.
* `TIMESTAMP` carries only the components the program ever inspects
  (`EXTRACT(MONTH ...)`, `EXTRACT(YEAR ...)`).
* A table is a list in insertion order; `SELECT` without `ORDER BY`
  returns that order (the code then takes `rows[0]`), and `ORDER BY`
  is modelled by an executable insertion sort.
* Statements that can violate table constraints (`PRIMARY KEY`,
  `UNIQUE (tel_number)`, the `CHECK (... IN ...)` enumerations) return a
  database-error outcome, which the handlers surface as HTTP 500.
-/

namespace BiometricDB

/-- A SQL `TIMESTAMP`, restricted to the components the program inspects:
the payroll query extracts only `MONTH` and `YEAR` from `verified_at`. -/
structure Timestamp where
  year : Nat
  month : Nat
  deriving DecidableEq

/-- The request body of the register/update endpoints: the columns of the
`soldiers` / `soldiersRepository` table other than the generated
`soldier_id` and the `created_at` / `updated_at` timestamps.
Columns declared `NOT NULL` (`full_names`, `date_of_birth`,
`date_of_enlistment`) are plain `String`; every other column is nullable.
`DATE` values are kept as opaque strings (the program never inspects them).
`net_salary DECIMAL(10,2)` is an exact integer count of cents.
`gun_number` exists only in the `soldiersRepository` revision of the table;
the `/` revision simply has no such column. -/
structure SoldierBody where
  full_names : String
  date_of_birth : String
  gender : Option String
  photo : Option String
  fingerprint_data : Option String
  rank_position : Option String
  date_of_enlistment : String
  horin_platoon : Option String
  horin_commander : Option String
  net_salary : Option Int
  tel_number : Option String
  clan : Option String
  guarantor_name : Option String
  guarantor_phone : Option String
  emergency_contact_name : Option String
  emergency_contact_phone : Option String
  home_address : Option String
  blood_group : Option String
  gun_number : Option String
  status : Option String
  deriving DecidableEq

/-- A stored row of the soldiers table: the generated primary key,
the data columns, and the two timestamp columns
(`created_at` / `updated_at`, both `DEFAULT CURRENT_TIMESTAMP`). -/
structure Soldier where
  soldier_id : String
  fields : SoldierBody
  created_at : Timestamp
  updated_at : Timestamp
  deriving DecidableEq

/-- A row of the `fingerprint_verifications` log table.  The data columns
are copied from the matched soldier at insert time (denormalised), and
`verified_at` takes its `DEFAULT CURRENT_TIMESTAMP`.  `full_names` is
always copied from the soldier's `NOT NULL` column, hence plain `String`. -/
structure VerificationRow where
  soldier_id : String
  full_names : String
  rank_position : Option String
  net_salary : Option Int
  horin_platoon : Option String
  verified_at : Timestamp
  deriving DecidableEq

/-- The relational store: the soldiers table (named `soldiers` in the `/`
revision and `soldiersRepository` in the `/api` revision, with identical
behaviour for everything the claims concern) and the
`fingerprint_verifications` log. -/
structure DB where
  soldiers : List Soldier
  verifications : List VerificationRow
  deriving DecidableEq

/-- The store right after the setup endpoints created the empty tables. -/
def DB.empty : DB := ⟨[], []⟩

/-! ## JS value helpers -/

/-- JS `v || d` for a string-valued field against a string default:
`null`/`undefined` and the empty string are falsy and yield the default. -/
def jsOrStr (v : Option String) (d : String) : Option String :=
  match v with
  | none => some d
  | some s => if s = "" then some d else some s

/-- JS `v || null` for a string-valued field (used for `gun_number`):
the empty string is falsy and becomes SQL NULL. -/
def jsOrNull (v : Option String) : Option String :=
  match v with
  | none => none
  | some s => if s = "" then none else some s

/-! ## Soldier-ID generation

`const count = parseInt(countResult.rows[0].count) + 1;`
`const soldier_id = ` CMJ + `String(count).padStart(5, '0')`.
`String(count)` is the decimal representation, built here from
`Nat.digits 10` (little-endian digits, hence the `reverse`). -/

/-- The decimal digit characters, as JS `String(n)` produces them. -/
def digitChar : Nat → Char
  | 0 => '0' | 1 => '1' | 2 => '2' | 3 => '3' | 4 => '4'
  | 5 => '5' | 6 => '6' | 7 => '7' | 8 => '8' | 9 => '9'
  | _ => '?'

/-- Little-endian decimal digit characters of `n`, driven by a fuel
argument so that the recursion is structural (hence kernel-evaluable);
`natCharsAux n n` is always enough fuel since `n / 10 < n`. -/
def natCharsAux : Nat → Nat → List Char
  | 0, _ => []
  | _ + 1, 0 => []
  | fuel + 1, n + 1 => digitChar ((n + 1) % 10) :: natCharsAux fuel ((n + 1) / 10)

/-- The character list of JS `String(n)` for a natural number. -/
def natChars (n : Nat) : List Char :=
  if n = 0 then ['0'] else (natCharsAux n n).reverse

/-- JS `String.prototype.padStart(width, c)`: left-pad to `width`,
never truncating. -/
def padChars (c : Char) (width : Nat) (s : List Char) : List Char :=
  List.replicate (width - s.length) c ++ s

/-- The generated soldier identifier for a given `count` value
(`count` is already current-row-count-plus-one in the handlers). -/
def generateSoldierId (count : Nat) : String :=
  String.mk ('C' :: 'M' :: 'J' :: padChars '0' 5 (natChars count))

/-! ## Table constraints -/

/-- A SQL `CHECK (col IN (...))` on a nullable column: NULL passes. -/
def checkIn (v : Option String) (allowed : List String) : Bool :=
  match v with
  | none => true
  | some s => allowed.contains s

/-- The `CHECK` constraints of the `soldiersRepository` table
(`gender`, `horin_platoon`, `blood_group`, `status`; the `/` revision's
table additionally checks `rank_position`, which no claim depends on). -/
def rowChecksOk (f : SoldierBody) : Bool :=
  checkIn f.gender ["Male", "Female"] &&
  checkIn f.horin_platoon
    ["Horin1", "Horin2", "Horin3", "Horin4", "Horin5", "Horin6", "Taliska", "Fiat"] &&
  checkIn f.blood_group ["A+", "A-", "B+", "B-", "AB+", "AB-", "O+", "O-"] &&
  checkIn f.status ["Active", "Wounded", "Discharged", "Dead"]

/-- `PRIMARY KEY` conflict: some stored row already carries this id. -/
def pkConflict (rows : List Soldier) (sid : String) : Bool :=
  rows.any (fun s => s.soldier_id == sid)

/-- `UNIQUE (tel_number)` conflict against the given rows
(NULLs never conflict in SQL). -/
def telConflict (rows : List Soldier) (tel : Option String) : Bool :=
  match tel with
  | none => false
  | some t => rows.any (fun s => s.fields.tel_number == some t)

/-! ## POST /soldiers and POST /api/soldiers (registration) -/

/-- Outcome of the registration endpoint: the stored row on success
(HTTP 200), or a database error surfaced as HTTP 500. -/
inductive RegisterResult
  | created (soldier : Soldier)
  | dbError
  deriving DecidableEq

/-- HTTP status of a registration response. -/
def RegisterResult.status : RegisterResult → Nat
  | created _ => 200
  | dbError => 500

/-- The stored data columns produced by the registration INSERT:
every `$n` value is the body field, except `gun_number || null` and
`status || 'Active'`. -/
def insertedFields (b : SoldierBody) : SoldierBody :=
  { b with gun_number := jsOrNull b.gun_number, status := jsOrStr b.status "Active" }

/-- `POST /soldiers` / `POST /api/soldiers`: count the rows, derive
`soldier_id` from count-plus-one, INSERT, return the stored row.
A constraint violation aborts the INSERT: the table is unchanged and the
handler answers 500.  (The `/` revision's INSERT has no `gun_number`
column; its id generation and control flow are otherwise identical.) -/
def postSoldier (db : DB) (b : SoldierBody) (now : Timestamp) : DB × RegisterResult :=
  let count := db.soldiers.length + 1
  let sid := generateSoldierId count
  let f := insertedFields b
  let row : Soldier := ⟨sid, f, now, now⟩
  if pkConflict db.soldiers sid || telConflict db.soldiers f.tel_number
      || !(rowChecksOk f) then
    (db, .dbError)
  else
    ({ db with soldiers := db.soldiers ++ [row] }, .created row)

/-! ## POST /verify-fingerprint -/

/-- Outcome of the template-equality verification endpoint: the echoed
soldier columns on success, or HTTP 404 when no row matched. -/
inductive VerifyResult
  | verified (soldier_id : String) (full_names : String)
      (rank_position : Option String) (net_salary : Option Int)
      (horin_platoon : Option String)
  | notFound
  deriving DecidableEq

/-- HTTP status of a verification response. -/
def VerifyResult.status : VerifyResult → Nat
  | verified _ _ _ _ _ => 200
  | notFound => 404

/-- `WHERE fingerprint_data = $1`: SQL equality is never satisfied when
either side is NULL, so a NULL template matches nothing and a stored NULL
template is never matched. -/
def fingerprintMatches (tmpl : Option String) (s : Soldier) : Bool :=
  match tmpl, s.fields.fingerprint_data with
  | some t, some d => d == t
  | _, _ => false

/-- The log row INSERTed on a successful verification: the soldier's
columns denormalised, `verified_at` from its default. -/
def mkVerificationRow (s : Soldier) (now : Timestamp) : VerificationRow :=
  ⟨s.soldier_id, s.fields.full_names, s.fields.rank_position,
    s.fields.net_salary, s.fields.horin_platoon, now⟩

/-- `POST /verify-fingerprint`: select the soldiers whose stored template
equals the submitted one, 404 on none, otherwise log `rows[0]` and echo
its columns. -/
def verifyFingerprint (db : DB) (tmpl : Option String) (now : Timestamp) :
    DB × VerifyResult :=
  match db.soldiers.filter (fingerprintMatches tmpl) with
  | [] => (db, .notFound)
  | s :: _ =>
      ({ db with verifications := db.verifications ++ [mkVerificationRow s now] },
        .verified s.soldier_id s.fields.full_names s.fields.rank_position
          s.fields.net_salary s.fields.horin_platoon)

/-! ## ORDER BY

SQL `ORDER BY` returns some permutation of the selected rows that is
sorted under the requested keys; it is modelled by an executable insertion
sort (structurally recursive, so concrete runs evaluate by `decide`).
Text ordering is Lean's lexicographic `String` order (the `C` collation);
ascending `ORDER BY` on a nullable column puts NULLs last. -/

/-- Insert into a list sorted by `le`. -/
def insertSorted (le : α → α → Bool) (a : α) : List α → List α
  | [] => [a]
  | b :: l => if le a b then a :: b :: l else b :: insertSorted le a l

/-- Insertion sort by a boolean comparison. -/
def sortBy (le : α → α → Bool) : List α → List α
  | [] => []
  | a :: l => insertSorted le a (sortBy le l)

/-- Ascending order on a nullable text column, NULLs last
(Postgres default for ascending `ORDER BY`). -/
def optStrLe (a b : Option String) : Bool :=
  match a, b with
  | some x, some y => decide (x ≤ y)
  | some _, none => true
  | none, some _ => false
  | none, none => true

/-- `ORDER BY horin_platoon, rank_position` on the verification log. -/
def payrollLe (u v : VerificationRow) : Bool :=
  if u.horin_platoon == v.horin_platoon then
    optStrLe u.rank_position v.rank_position
  else
    optStrLe u.horin_platoon v.horin_platoon

/-- `ORDER BY soldier_id` on the soldiers table. -/
def soldierIdLe (a b : Soldier) : Bool :=
  decide (a.soldier_id ≤ b.soldier_id)

/-! ## GET /monthly-payroll and GET /api/monthly-payroll -/

/-- The JSON `report` object of the payroll endpoints.  `total_salary` is
computed in JS by `reduce((sum, s) => sum + parseFloat(s.net_salary), 0)`;
a NULL salary parses to `NaN`, which poisons the whole sum — `NaN` is
modelled as `none`. -/
structure PayrollReport where
  month : Nat
  year : Nat
  total_soldiers : Nat
  total_salary : Option Int
  soldiers : List VerificationRow
  deriving DecidableEq

/-- One step of the JS salary reduction: `sum + parseFloat(v)`, where a
NULL operand (`NaN` after `parseFloat`) makes the result `NaN` (`none`). -/
def jsAddSalary (acc : Option Int) (v : Option Int) : Option Int :=
  match acc, v with
  | some a, some b => some (a + b)
  | _, _ => none

/-- `EXTRACT(MONTH FROM verified_at) = $1 AND EXTRACT(YEAR ...) = $2`. -/
def inMonth (m y : Nat) (r : VerificationRow) : Bool :=
  r.verified_at.month == m && r.verified_at.year == y

/-- `GET /monthly-payroll` (identical in both revisions): default absent
query parameters to the current month/year, filter the log by month and
year, order by platoon then rank, count the rows and reduce the salaries. -/
def monthlyPayroll (db : DB) (month year : Option Nat) (nowMonth nowYear : Nat) :
    PayrollReport :=
  let m := month.getD nowMonth
  let y := year.getD nowYear
  let rows := sortBy payrollLe (db.verifications.filter (inMonth m y))
  { month := m, year := y,
    total_soldiers := rows.length,
    total_salary := rows.foldl (fun acc r => jsAddSalary acc r.net_salary) (some 0),
    soldiers := rows }

/-! ## GET /api/soldiers, GET /api/soldiers/:id, GET /api/soldiers-search -/

/-- `GET /api/soldiers` (and `GET /soldiers`): all rows, `ORDER BY soldier_id`. -/
def getSoldiers (db : DB) : List Soldier :=
  sortBy soldierIdLe db.soldiers

/-- Outcome of the single-row fetch: the row, or HTTP 404. -/
inductive FetchResult
  | found (s : Soldier)
  | missing
  deriving DecidableEq

/-- HTTP status of a single-row fetch response. -/
def FetchResult.status : FetchResult → Nat
  | found _ => 200
  | missing => 404

/-- `GET /api/soldiers/:id`: `WHERE soldier_id = $1`, 404 on no row,
otherwise `rows[0]`.  A read: the store is untouched. -/
def getSoldierById (db : DB) (id : String) : FetchResult :=
  match db.soldiers.filter (fun s => s.soldier_id == id) with
  | [] => .missing
  | s :: _ => .found s

/-- All suffixes of a character list, longest first (ending with `[]`). -/
def tailsOf : List Char → List (List Char)
  | [] => [[]]
  | c :: ts => (c :: ts) :: tailsOf ts

/-- Postgres `ILIKE` pattern matching over case-folded character lists:
`%` matches any run, `_` any single character, backslash escapes the
following pattern character.  Structurally recursive on the pattern; the
`%` case tries every suffix of the text. -/
def ilikeMatch : List Char → List Char → Bool
  | [], t => t.isEmpty
  | p :: ps, t =>
    if p == '%' then
      (tailsOf t).any (fun s => ilikeMatch ps s)
    else if p == '\\' then
      match ps, t with
      | e :: ps2, c :: ts => e == c && ilikeMatch ps2 ts
      | _, _ => false
    else if p == '_' then
      match t with
      | [] => false
      | _ :: ts => ilikeMatch ps ts
    else
      match t with
      | [] => false
      | c :: ts => p == c && ilikeMatch ps ts

/-- Case folding applied by `ILIKE`, on the character list of a string. -/
def lowerChars (s : String) : List Char :=
  s.data.map Char.toLower

/-- `soldier_id ILIKE $1 OR full_names ILIKE $1` with `$1 = '%' + query + '%'`. -/
def soldierMatchesSearch (q : String) (s : Soldier) : Bool :=
  ilikeMatch ('%' :: (lowerChars q ++ ['%'])) (lowerChars s.soldier_id) ||
  ilikeMatch ('%' :: (lowerChars q ++ ['%'])) (lowerChars s.fields.full_names)

/-- Outcome of the search endpoint: matching rows, or HTTP 400 on a
missing query. -/
inductive SearchResult
  | results (rows : List Soldier)
  | badRequest
  deriving DecidableEq

/-- HTTP status of a search response. -/
def SearchResult.status : SearchResult → Nat
  | results _ => 200
  | badRequest => 400

/-- `GET /api/soldiers-search?query=`: `if (!query)` answers 400 (this
catches both an absent parameter and an empty string, which is falsy in
JS); otherwise the `ILIKE`-filtered rows, `ORDER BY soldier_id`. -/
def searchSoldiers (db : DB) (query : Option String) : SearchResult :=
  match query with
  | none => .badRequest
  | some q =>
      if q = "" then .badRequest
      else .results (sortBy soldierIdLe (db.soldiers.filter (soldierMatchesSearch q)))

/-! ## PUT /api/soldiers/:id and DELETE /api/soldiers/:id -/

/-- Outcome of the full-record update: the returned row (HTTP 200),
HTTP 404 when no row carries the id, or a constraint violation (HTTP 500). -/
inductive UpdateResult
  | updated (s : Soldier)
  | missing
  | dbError
  deriving DecidableEq

/-- HTTP status of an update response. -/
def UpdateResult.status : UpdateResult → Nat
  | updated _ => 200
  | missing => 404
  | dbError => 500

/-- The data columns written by the UPDATE statement: every `$n` is the
body field except `gun_number || null`; unlike registration, `status` is
passed through verbatim. -/
def updatedFields (b : SoldierBody) : SoldierBody :=
  { b with gun_number := jsOrNull b.gun_number }

/-- Effect of the UPDATE on one matched row: all data columns replaced,
`updated_at = CURRENT_TIMESTAMP`, `created_at` untouched. -/
def applyUpdate (b : SoldierBody) (now : Timestamp) (s : Soldier) : Soldier :=
  { s with fields := updatedFields b, updated_at := now }

/-- `PUT /api/soldiers/:id`: UPDATE all columns `WHERE soldier_id = $21`,
404 when no row matched (`result.rows.length === 0`), 500 leaving the
table unchanged when the updated row would violate a `CHECK` or move
`tel_number` onto another row's value. -/
def putSoldier (db : DB) (id : String) (b : SoldierBody) (now : Timestamp) :
    DB × UpdateResult :=
  match db.soldiers.filter (fun s => s.soldier_id == id) with
  | [] => (db, .missing)
  | s0 :: _ =>
      let f := updatedFields b
      let telClash :=
        match f.tel_number with
        | none => false
        | some t => db.soldiers.any
            (fun s => !(s.soldier_id == id) && s.fields.tel_number == some t)
      if !(rowChecksOk f) || telClash then
        (db, .dbError)
      else
        ({ db with soldiers :=
            db.soldiers.map (fun s => if s.soldier_id == id then applyUpdate b now s else s) },
          .updated (applyUpdate b now s0))

/-- Outcome of the delete: the removed row, or HTTP 404. -/
inductive DeleteResult
  | deleted (s : Soldier)
  | missing
  deriving DecidableEq

/-- HTTP status of a delete response. -/
def DeleteResult.status : DeleteResult → Nat
  | deleted _ => 200
  | missing => 404

/-- `DELETE /api/soldiers/:id RETURNING *`: 404 when no row matched,
otherwise the matching rows are removed.  (No table references
`soldiersRepository`, so the delete cannot hit a foreign-key failure.) -/
def deleteSoldier (db : DB) (id : String) : DB × DeleteResult :=
  match db.soldiers.filter (fun s => s.soldier_id == id) with
  | [] => (db, .missing)
  | s0 :: _ =>
      ({ db with soldiers := db.soldiers.filter (fun s => !(s.soldier_id == id)) },
        .deleted s0)

/-! ## Device-backed endpoints (the `/` revision)

The ZKTeco driver is external; its capture and compare results enter the
model as oracle parameters.  Only their database effects matter here. -/

/-- The device-side template comparison for one stored row: the code first
selects `WHERE fingerprint_data IS NOT NULL`, then calls the driver on the
stored template (a driver error is caught and treated as no match, which
the oracle already absorbs). -/
def liveMatches (devMatch : String → Bool) (s : Soldier) : Bool :=
  match s.fields.fingerprint_data with
  | some d => devMatch d
  | none => false

/-- Outcome of `POST /verify-fingerprint-live`: echoed columns, 404 on no
device match, 400 when the scan produced no template. -/
inductive LiveResult
  | verified (soldier_id : String) (full_names : String)
      (rank_position : Option String) (net_salary : Option Int)
      (horin_platoon : Option String)
  | notFound
  | scanFailed
  deriving DecidableEq

/-- `POST /verify-fingerprint-live`: on a successful scan, the first
soldier whose stored template the device matches is logged exactly like
the template-equality endpoint; otherwise the store is untouched. -/
def verifyLive (db : DB) (scanOk : Bool) (devMatch : String → Bool)
    (now : Timestamp) : DB × LiveResult :=
  if !scanOk then (db, .scanFailed)
  else
    match db.soldiers.filter (liveMatches devMatch) with
    | [] => (db, .notFound)
    | s :: _ =>
        ({ db with verifications := db.verifications ++ [mkVerificationRow s now] },
          .verified s.soldier_id s.fields.full_names s.fields.rank_position
            s.fields.net_salary s.fields.horin_platoon)

/-- `POST /enroll-fingerprint`: 404 for an unknown soldier; on a captured
template, `UPDATE soldiers SET fingerprint_data = $1 WHERE soldier_id = $2`;
a failed capture answers 400 with the store untouched.  The device-side
bookkeeping has no database effect. -/
def enrollFingerprint (db : DB) (sid : String) (captured : Option String) : DB :=
  if !db.soldiers.any (fun s => s.soldier_id == sid) then db
  else
    match captured with
    | none => db
    | some tpl =>
        { db with soldiers := db.soldiers.map (fun s =>
            if s.soldier_id == sid then
              { s with fields := { s.fields with fingerprint_data := some tpl } }
            else s) }

/-! ## The system's step relation -/

/-- One HTTP request, over both revisions.  Device captures and
comparisons appear as oracle arguments; pure reads (list, fetch, search,
payroll, table view, health, the index pages, the device-user listing and
device clear) are grouped as `readOnly` since they never touch the store. -/
inductive Op where
  | setupSoldiers
  | setupVerification
  | register (b : SoldierBody) (now : Timestamp)
  | verifyTemplate (tmpl : Option String) (now : Timestamp)
  | verifyDevice (scanOk : Bool) (devMatch : String → Bool) (now : Timestamp)
  | enroll (sid : String) (captured : Option String)
  | update (id : String) (b : SoldierBody) (now : Timestamp)
  | delete (id : String)
  | resetDatabase
  | readOnly

/-- The store produced by one request.  `setup-soldiers` and
`setup-verification` use `CREATE TABLE IF NOT EXISTS` (the `/api` setup at
most adds the `gun_number` column, which every modelled row already has),
so existing rows survive; `reset-database` drops and recreates the
soldiers table and touches no other table. -/
def applyOp (db : DB) : Op → DB
  | .setupSoldiers => db
  | .setupVerification => db
  | .register b now => (postSoldier db b now).1
  | .verifyTemplate tmpl now => (verifyFingerprint db tmpl now).1
  | .verifyDevice scanOk devMatch now => (verifyLive db scanOk devMatch now).1
  | .enroll sid captured => enrollFingerprint db sid captured
  | .update id b now => (putSoldier db id b now).1
  | .delete id => (deleteSoldier db id).1
  | .resetDatabase => { db with soldiers := [] }
  | .readOnly => db

/-- The stores reachable from the freshly created tables. -/
inductive Reachable : DB → Prop where
  | empty : Reachable DB.empty
  | step (db : DB) (op : Op) : Reachable db → Reachable (applyOp db op)

/-- A successful verification match: the only circumstance in which a
request appends to the `fingerprint_verifications` log. -/
def verificationMatched (db : DB) : Op → Prop
  | .verifyTemplate tmpl _ => ∃ s ∈ db.soldiers, fingerprintMatches tmpl s = true
  | .verifyDevice scanOk devMatch _ =>
      scanOk = true ∧ ∃ s ∈ db.soldiers, liveMatches devMatch s = true
  | _ => False

/-! ## Spec-side definitions

Definitions following the specification's words rather than the SQL, for
the refinement comparisons; each is named `spec...`. -/

/-- `needle` occurs at the very start of `hay`. -/
def leadsWith : List Char → List Char → Bool
  | [], _ => true
  | _ :: _, [] => false
  | a :: as, b :: bs => a == b && leadsWith as bs

/-- `needle` occurs contiguously somewhere in `hay`. -/
def charsContain (hay needle : List Char) : Bool :=
  (tailsOf hay).any (fun s => leadsWith needle s)

/-- Spec-side search predicate: "rows whose identifier or name contains
the submitted query as a case-insensitive substring". -/
def specSearchMatches (q : String) (s : Soldier) : Bool :=
  charsContain (lowerChars s.soldier_id) (lowerChars q) ||
  charsContain (lowerChars s.fields.full_names) (lowerChars q)

/-- Spec-side payroll total: "the sum of net_salary over exactly those
rows" (well-defined when every row's salary is non-null; `getD 0` is
never exercised under that hypothesis). -/
def specSalarySum (rows : List VerificationRow) : Int :=
  (rows.map (fun r => r.net_salary.getD 0)).sum

/-- A character with no special meaning in a SQL LIKE pattern. -/
def plainChar (c : Char) : Bool :=
  !(c == '%') && !(c == '_') && !(c == '\\')

/-- A query whose case-folded characters are all pattern-neutral, so that
wrapping it in `%` really searches for it as a literal substring. -/
def plainQuery (q : String) : Bool :=
  (lowerChars q).all plainChar

/-! ## Sequential registration (claim C1's scenario) -/

/-- Two request bodies whose phone numbers cannot collide under
`UNIQUE (tel_number)`: they differ, or are NULL (SQL NULLs never clash). -/
def telDisjoint (a b : SoldierBody) : Bool :=
  !(a.tel_number == b.tel_number && !(a.tel_number == none))

/-- Registering a list of bodies one after the other. -/
def registerAll (db : DB) (bodies : List SoldierBody) (now : Timestamp) : DB :=
  bodies.foldl (fun d b => (postSoldier d b now).1) db

/-- The rows sequential registration is expected to produce when `start`
rows are already stored: the k-th body gets identifier number
`start + k` (1-based). -/
def expectedRows (now : Timestamp) : List SoldierBody → Nat → List Soldier
  | [], _ => []
  | b :: bs, start =>
      ⟨generateSoldierId (start + 1), insertedFields b, now, now⟩
        :: expectedRows now bs (start + 1)

/-! ## Concrete fixtures for witnesses and counterexamples -/

/-- A fixed request time. -/
def sampleTime : Timestamp := ⟨2024, 5⟩

/-- A minimal valid registration body: the `NOT NULL` columns filled, a
salary of 300.00, everything else absent. -/
def sampleBody (name : String) : SoldierBody where
  full_names := name
  date_of_birth := "2000-01-01"
  gender := none
  photo := none
  fingerprint_data := none
  rank_position := none
  date_of_enlistment := "2020-01-01"
  horin_platoon := none
  horin_commander := none
  net_salary := some 30000
  tel_number := none
  clan := none
  guarantor_name := none
  guarantor_phone := none
  emergency_contact_name := none
  emergency_contact_phone := none
  home_address := none
  blood_group := none
  gun_number := none
  status := none

/-- A stored soldier with an enrolled template. -/
def sampleSoldier : Soldier :=
  ⟨"CMJ00001",
    { sampleBody "Ali Hassan" with
        fingerprint_data := some "TPL-1"
        rank_position := some "Askari"
        horin_platoon := some "Horin1" },
    sampleTime, sampleTime⟩

/-- A store holding exactly `sampleSoldier` and an empty log. -/
def sampleDB : DB := ⟨[sampleSoldier], []⟩

/-- A verification-log row with a salary. -/
def sampleVerification : VerificationRow :=
  ⟨"CMJ00001", "Ali Hassan", some "Askari", some 30000, some "Horin1", ⟨2024, 5⟩⟩

/-- A verification-log row whose `net_salary` is NULL (its soldier was
registered without a salary). -/
def nullSalaryVerification : VerificationRow :=
  ⟨"CMJ00002", "Badr Omar", some "Askari", none, some "Horin2", ⟨2024, 5⟩⟩

/-- An update body submitting the empty string for `gun_number`. -/
def emptyGunBody : SoldierBody :=
  { sampleBody "Ali Hassan" with gun_number := some "" }

/-- The store reached from fresh tables by registering two soldiers and
deleting the first: one row `CMJ00002` remains, so the next registration
recomputes the identifier `CMJ00002` from the row count. -/
def dbAfterDelete : DB :=
  applyOp
    (applyOp
      (applyOp DB.empty (.register (sampleBody "Ali Hassan") sampleTime))
      (.register (sampleBody "Badr Omar") sampleTime))
    (.delete "CMJ00001")

/-! # Theorems

Helper lemmas first (sorting, arithmetic of the salary reduction,
injectivity of the identifier generator, the `ILIKE`/substring bridge),
then one theorem per claim, each with its witness or counterexample. -/

/-! ## Sorting lemmas -/

theorem insertSorted_perm (le : α → α → Bool) (a : α) (l : List α) :
    List.Perm (insertSorted le a l) (a :: l) := by
  induction l with
  | nil => exact List.Perm.refl _
  | cons b t ih =>
    simp only [insertSorted]
    by_cases h : le a b
    · rw [if_pos h]
    · rw [if_neg h]
      exact (List.Perm.cons b ih).trans (List.Perm.swap a b t)

theorem sortBy_perm (le : α → α → Bool) (l : List α) :
    List.Perm (sortBy le l) l := by
  induction l with
  | nil => exact List.Perm.refl _
  | cons a t ih =>
    exact (insertSorted_perm le a (sortBy le t)).trans (List.Perm.cons a ih)

theorem pairwise_insertSorted (le : α → α → Bool)
    (htrans : ∀ a b c, le a b = true → le b c = true → le a c = true)
    (htotal : ∀ a b, le a b = true ∨ le b a = true)
    (a : α) (l : List α) (hl : l.Pairwise (fun x y => le x y = true)) :
    (insertSorted le a l).Pairwise (fun x y => le x y = true) := by
  induction l with
  | nil => simp [insertSorted]
  | cons b t ih =>
    rw [List.pairwise_cons] at hl
    obtain ⟨hb, ht⟩ := hl
    simp only [insertSorted]
    by_cases h : le a b
    · rw [if_pos h, List.pairwise_cons, List.pairwise_cons]
      refine ⟨?_, hb, ht⟩
      intro x hx
      rcases List.mem_cons.mp hx with hx | hx
      · exact hx ▸ h
      · exact htrans a b x h (hb x hx)
    · rw [if_neg h, List.pairwise_cons]
      refine ⟨?_, ih ht⟩
      intro x hx
      rcases List.mem_cons.mp ((insertSorted_perm le a t).mem_iff.mp hx) with hx | hx
      · rcases htotal a b with h' | h'
        · exact absurd h' h
        · exact hx ▸ h'
      · exact hb x hx

theorem sortBy_pairwise (le : α → α → Bool)
    (htrans : ∀ a b c, le a b = true → le b c = true → le a c = true)
    (htotal : ∀ a b, le a b = true ∨ le b a = true)
    (l : List α) : (sortBy le l).Pairwise (fun x y => le x y = true) := by
  induction l with
  | nil => simp [sortBy]
  | cons a t ih => exact pairwise_insertSorted le htrans htotal a _ ih

theorem optStrLe_trans (a b c : Option String)
    (h1 : optStrLe a b = true) (h2 : optStrLe b c = true) : optStrLe a c = true := by
  cases a <;> cases b <;> cases c <;>
    simp only [optStrLe, decide_eq_true_eq] at * <;> try trivial
  exact le_trans h1 h2

theorem optStrLe_total (a b : Option String) :
    optStrLe a b = true ∨ optStrLe b a = true := by
  cases a <;> cases b <;> simp only [optStrLe, decide_eq_true_eq] <;> try tauto
  exact le_total _ _

theorem optStrLe_antisymm (a b : Option String)
    (h1 : optStrLe a b = true) (h2 : optStrLe b a = true) : a = b := by
  cases a <;> cases b <;> simp only [optStrLe, decide_eq_true_eq] at * <;> try trivial
  exact congrArg some (le_antisymm h1 h2)

theorem soldierIdLe_trans (a b c : Soldier)
    (h1 : soldierIdLe a b = true) (h2 : soldierIdLe b c = true) :
    soldierIdLe a c = true := by
  simp only [soldierIdLe, decide_eq_true_eq] at *
  exact le_trans h1 h2

theorem soldierIdLe_total (a b : Soldier) :
    soldierIdLe a b = true ∨ soldierIdLe b a = true := by
  simp only [soldierIdLe, decide_eq_true_eq]
  exact le_total _ _

theorem payrollLe_trans (u v w : VerificationRow)
    (h1 : payrollLe u v = true) (h2 : payrollLe v w = true) :
    payrollLe u w = true := by
  simp only [payrollLe, beq_iff_eq] at *
  by_cases e1 : u.horin_platoon = v.horin_platoon <;>
    by_cases e2 : v.horin_platoon = w.horin_platoon
  · rw [if_pos e1] at h1
    rw [if_pos e2] at h2
    rw [if_pos (e1.trans e2)]
    exact optStrLe_trans _ _ _ h1 h2
  · rw [if_pos e1] at h1
    rw [if_neg e2] at h2
    rw [if_neg (e1 ▸ e2), e1]
    exact h2
  · rw [if_neg e1] at h1
    rw [if_pos e2] at h2
    rw [if_neg (fun h => e1 (h.trans e2.symm)), ← e2]
    exact h1
  · rw [if_neg e1] at h1
    rw [if_neg e2] at h2
    have e3 : u.horin_platoon ≠ w.horin_platoon := by
      intro h
      exact e2 (optStrLe_antisymm _ _ h2 (h ▸ h1))
    rw [if_neg e3]
    exact optStrLe_trans _ _ _ h1 h2

theorem payrollLe_total (u v : VerificationRow) :
    payrollLe u v = true ∨ payrollLe v u = true := by
  simp only [payrollLe, beq_iff_eq]
  by_cases e : u.horin_platoon = v.horin_platoon
  · rw [if_pos e, if_pos e.symm]
    exact optStrLe_total _ _
  · rw [if_neg e, if_neg (fun h => e h.symm)]
    exact optStrLe_total _ _

/-! ## The salary reduction -/

theorem foldl_jsAddSalary (l : List VerificationRow) (init : Int)
    (h : ∀ r ∈ l, r.net_salary ≠ none) :
    l.foldl (fun acc r => jsAddSalary acc r.net_salary) (some init)
      = some (init + specSalarySum l) := by
  induction l generalizing init with
  | nil => simp [specSalarySum]
  | cons r t ih =>
    obtain ⟨v, hv⟩ : ∃ v, r.net_salary = some v := by
      cases hr : r.net_salary with
      | none => exact absurd hr (h r (List.mem_cons_self r t))
      | some v => exact ⟨v, rfl⟩
    have ht : ∀ x ∈ t, x.net_salary ≠ none :=
      fun x hx => h x (List.mem_cons_of_mem r hx)
    rw [List.foldl_cons]
    have hstep : jsAddSalary (some init) r.net_salary = some (init + v) := by
      rw [hv]; rfl
    rw [hstep, ih (init + v) ht]
    simp [specSalarySum, hv, Int.add_assoc]

theorem specSalarySum_perm {l1 l2 : List VerificationRow}
    (h : List.Perm l1 l2) : specSalarySum l1 = specSalarySum l2 :=
  List.Perm.sum_eq (h.map _)

/-! ## Injectivity of the identifier generator -/

theorem natCharsAux_eq_digits : ∀ (fuel n : Nat), n ≤ fuel →
    natCharsAux fuel n = (Nat.digits 10 n).map digitChar := by
  intro fuel
  induction fuel with
  | zero =>
    intro n hn
    have : n = 0 := Nat.le_zero.mp hn
    subst this
    simp [natCharsAux]
  | succ f ih =>
    intro n hn
    match n with
    | 0 => simp [natCharsAux]
    | m + 1 =>
      have hdiv : (m + 1) / 10 ≤ f := by
        have := Nat.div_lt_self (Nat.succ_pos m) (by norm_num : 1 < 10)
        omega
      rw [natCharsAux, ih _ hdiv,
        Nat.digits_def' (by norm_num : 1 < 10) (Nat.succ_pos m), List.map_cons]

theorem natChars_eq (n : Nat) (hn : n ≠ 0) :
    natChars n = ((Nat.digits 10 n).map digitChar).reverse := by
  rw [natChars, if_neg hn, natCharsAux_eq_digits n n le_rfl]

theorem digitChar_inj_lt : ∀ a < 10, ∀ b < 10, digitChar a = digitChar b → a = b := by
  decide

theorem map_digitChar_inj : ∀ (l1 l2 : List Nat),
    (∀ d ∈ l1, d < 10) → (∀ d ∈ l2, d < 10) →
    l1.map digitChar = l2.map digitChar → l1 = l2 := by
  intro l1
  induction l1 with
  | nil =>
    intro l2 _ _ h
    cases l2 with
    | nil => rfl
    | cons b t => simp at h
  | cons a t ih =>
    intro l2 h1 h2 h
    cases l2 with
    | nil => simp at h
    | cons b t2 =>
      simp only [List.map_cons, List.cons.injEq] at h
      have hab : a = b :=
        digitChar_inj_lt a (h1 a (List.mem_cons_self a t))
          b (h2 b (List.mem_cons_self b t2)) h.1
      subst hab
      rw [ih t2 (fun d hd => h1 d (List.mem_cons_of_mem a hd))
        (fun d hd => h2 d (List.mem_cons_of_mem a hd)) h.2]

theorem natChars_eq_singleton_zero {n : Nat} (h : natChars n = ['0']) : n = 0 := by
  by_contra hn
  rw [natChars_eq n hn] at h
  have h2 : (Nat.digits 10 n).map digitChar = ['0'] := by
    have h3 := congrArg List.reverse h
    simpa using h3
  have h3 : Nat.digits 10 n = [0] :=
    map_digitChar_inj _ [0]
      (fun d hd => Nat.digits_lt_base (by norm_num) hd)
      (by intro d hd; simp at hd; omega)
      (by rw [h2]; rfl)
  have h4 := Nat.ofDigits_digits 10 n
  rw [h3] at h4
  simp [Nat.ofDigits] at h4
  exact hn h4.symm

theorem natChars_inj {m n : Nat} (h : natChars m = natChars n) : m = n := by
  by_cases hm : m = 0 <;> by_cases hn : n = 0
  · exact hm.trans hn.symm
  · subst hm
    have h0 : natChars 0 = ['0'] := by simp [natChars]
    exact absurd (natChars_eq_singleton_zero (h.symm.trans h0)) hn
  · subst hn
    have h0 : natChars 0 = ['0'] := by simp [natChars]
    exact (natChars_eq_singleton_zero (h.trans h0)).symm ▸ rfl
  · rw [natChars_eq m hm, natChars_eq n hn] at h
    have h2 := List.reverse_injective h
    exact Nat.digits_inj_iff.mp
      (map_digitChar_inj _ _
        (fun d hd => Nat.digits_lt_base (by norm_num) hd)
        (fun d hd => Nat.digits_lt_base (by norm_num) hd) h2)

theorem natChars_head_ne (n : Nat) (hn : n ≠ 0) :
    ∀ c, (natChars n).head? = some c → c ≠ '0' := by
  intro c hc h0
  subst h0
  rw [natChars_eq n hn] at hc
  cases hrev : (Nat.digits 10 n).reverse with
  | nil =>
    rw [← List.map_reverse, hrev] at hc
    simp at hc
  | cons d rest =>
    rw [← List.map_reverse, hrev] at hc
    simp only [List.map_cons, List.head?_cons, Option.some.injEq] at hc
    have hd_mem : d ∈ Nat.digits 10 n :=
      List.mem_reverse.mp (hrev ▸ List.mem_cons_self d rest)
    have hd10 : d < 10 := Nat.digits_lt_base (by norm_num) hd_mem
    have hd0 : d = 0 :=
      digitChar_inj_lt d hd10 0 (by norm_num) (by rw [hc]; rfl)
    have hne : Nat.digits 10 n ≠ [] := Nat.digits_ne_nil_iff_ne_zero.mpr hn
    have hlast := Nat.getLast_digit_ne_zero 10 hn
    have hget : (Nat.digits 10 n).getLast? = some d := by
      rw [← List.head?_reverse, hrev]; rfl
    rw [List.getLast?_eq_getLast _ hne, Option.some.injEq] at hget
    exact hlast (hget.trans hd0)

theorem unpad_eq : ∀ (a b : Nat) (s1 s2 : List Char),
    (∀ c, s1.head? = some c → c ≠ '0') → (∀ c, s2.head? = some c → c ≠ '0') →
    List.replicate a '0' ++ s1 = List.replicate b '0' ++ s2 → s1 = s2 := by
  intro a
  induction a with
  | zero =>
    intro b s1 s2 h1 h2 h
    cases b with
    | zero => simpa using h
    | succ b2 =>
      rw [List.replicate_zero, List.nil_append, List.replicate_succ,
        List.cons_append] at h
      exact absurd rfl (h1 '0' (by rw [h]; rfl))
  | succ a2 ih =>
    intro b s1 s2 h1 h2 h
    cases b with
    | zero =>
      rw [List.replicate_zero, List.nil_append, List.replicate_succ,
        List.cons_append] at h
      exact absurd rfl (h2 '0' (by rw [← h]; rfl))
    | succ b2 =>
      rw [List.replicate_succ, List.replicate_succ, List.cons_append,
        List.cons_append, List.cons_eq_cons] at h
      exact ih b2 s1 s2 h1 h2 h.2

theorem generateSoldierId_inj {m n : Nat} (hm : m ≠ 0) (hn : n ≠ 0)
    (h : generateSoldierId m = generateSoldierId n) : m = n := by
  have hd : ('C' :: 'M' :: 'J' :: padChars '0' 5 (natChars m))
      = 'C' :: 'M' :: 'J' :: padChars '0' 5 (natChars n) := congrArg String.data h
  simp only [List.cons.injEq, true_and] at hd
  unfold padChars at hd
  exact natChars_inj
    (unpad_eq _ _ _ _ (natChars_head_ne m hm) (natChars_head_ne n hn) hd)

/-! ## Sequential registration -/

theorem telDisjoint_no_clash (a b : SoldierBody) (t : String)
    (hdisj : telDisjoint a b = true) (hb : b.tel_number = some t) :
    (a.tel_number == some t) = false := by
  rw [telDisjoint, hb] at hdisj
  cases ha : a.tel_number with
  | none => rfl
  | some u =>
    rw [ha] at hdisj
    simpa using hdisj

theorem insertedFields_tel (b : SoldierBody) :
    (insertedFields b).tel_number = b.tel_number := rfl

theorem telDisjoint_insertedFields (a b : SoldierBody) :
    telDisjoint (insertedFields a) b = telDisjoint a b := rfl

theorem expectedRows_map_sid (now : Timestamp) :
    ∀ (bodies : List SoldierBody) (start : Nat),
    (expectedRows now bodies start).map Soldier.soldier_id
      = (List.range bodies.length).map (fun k => generateSoldierId (start + k + 1)) := by
  intro bodies
  induction bodies with
  | nil => intro start; simp [expectedRows]
  | cons b bs ih =>
    intro start
    rw [expectedRows, List.map_cons, ih (start + 1), List.length_cons,
      List.range_succ_eq_map, List.map_cons, List.map_map]
    have h2 : ((fun k => generateSoldierId (start + k + 1)) ∘ Nat.succ)
        = fun k => generateSoldierId (start + 1 + k + 1) := by
      funext k
      simp only [Function.comp_apply]
      congr 1
      omega
    rw [h2]

theorem registerAll_go (now : Timestamp) :
    ∀ (bodies : List SoldierBody) (sold : List Soldier) (verifs : List VerificationRow),
    (∀ s ∈ sold, ∃ i, i < sold.length ∧ s.soldier_id = generateSoldierId (i + 1)) →
    (∀ s ∈ sold, ∀ b ∈ bodies, telDisjoint s.fields b = true) →
    (∀ b ∈ bodies, rowChecksOk (insertedFields b) = true) →
    bodies.Pairwise (fun a b => telDisjoint a b = true) →
    registerAll ⟨sold, verifs⟩ bodies now
      = ⟨sold ++ expectedRows now bodies sold.length, verifs⟩ := by
  intro bodies
  induction bodies with
  | nil =>
    intro sold verifs _ _ _ _
    simp [registerAll, expectedRows]
  | cons b bs ih =>
    intro sold verifs hsid htel hok hpair
    have hok_b : rowChecksOk (insertedFields b) = true :=
      hok b (List.mem_cons_self b bs)
    have hpk : pkConflict sold (generateSoldierId (sold.length + 1)) = false := by
      rw [pkConflict, List.any_eq_false]
      intro s hs
      simp only [beq_iff_eq]
      intro hbeq
      obtain ⟨i, hi, hsid_i⟩ := hsid s hs
      have : i + 1 = sold.length + 1 :=
        generateSoldierId_inj (Nat.succ_ne_zero i) (Nat.succ_ne_zero _)
          (hsid_i ▸ hbeq)
      omega
    have htc : telConflict sold (insertedFields b).tel_number = false := by
      cases hb : (insertedFields b).tel_number with
      | none => simp [telConflict, hb]
      | some t =>
        simp only [telConflict, hb, List.any_eq_false]
        intro s hs
        simp only [Bool.not_eq_true]
        exact telDisjoint_no_clash s.fields b t
          (htel s hs b (List.mem_cons_self b bs))
          ((insertedFields_tel b) ▸ hb)
    have hstep : (postSoldier ⟨sold, verifs⟩ b now).1
        = ⟨sold ++ [⟨generateSoldierId (sold.length + 1), insertedFields b, now, now⟩],
            verifs⟩ := by
      simp only [postSoldier, hpk, htc, hok_b]
      rfl
    set row : Soldier :=
      ⟨generateSoldierId (sold.length + 1), insertedFields b, now, now⟩ with hrow
    have hreg : registerAll ⟨sold, verifs⟩ (b :: bs) now
        = registerAll ⟨sold ++ [row], verifs⟩ bs now := by
      rw [registerAll, List.foldl_cons, hstep]
      rfl
    have hnext := ih (sold ++ [row]) verifs
      (by
        intro s hs
        rcases List.mem_append.mp hs with hs | hs
        · obtain ⟨i, hi, hsid_i⟩ := hsid s hs
          exact ⟨i, by simp; omega, hsid_i⟩
        · refine ⟨sold.length, by simp, ?_⟩
          rw [List.mem_singleton.mp hs])
      (by
        intro s hs b2 hb2
        rcases List.mem_append.mp hs with hs | hs
        · exact htel s hs b2 (List.mem_cons_of_mem b hb2)
        · rw [List.mem_singleton.mp hs]
          show telDisjoint (insertedFields b) b2 = true
          rw [telDisjoint_insertedFields]
          exact (List.pairwise_cons.mp hpair).1 b2 hb2)
      (fun b2 hb2 => hok b2 (List.mem_cons_of_mem b hb2))
      ((List.pairwise_cons.mp hpair).2)
    rw [hreg, hnext]
    simp only [List.length_append, List.length_singleton, List.append_assoc,
      List.singleton_append, expectedRows]

/-! ## Claim C1 -/

/-- C1: starting from an empty soldiers store, registering N soldiers
sequentially via `POST /soldiers` / `POST /api/soldiers` assigns the k-th
registration (1-based) the identifier `generateSoldierId k`, i.e. `CMJ`
followed by k zero-padded to 5 digits — `CMJ00001` … `CMJ0000N`; each
identifier is computed as current row count plus one at insert time
(`postSoldier` derives it from `db.soldiers.length + 1`).  The bodies must
pass the table's CHECK constraints and carry pairwise non-clashing phone
numbers, since a failed INSERT would shift the numbering. -/
theorem C1_sequential_registration_ids (bodies : List SoldierBody) (now : Timestamp)
    (hok : ∀ b ∈ bodies, rowChecksOk (insertedFields b) = true)
    (hpair : bodies.Pairwise (fun a b => telDisjoint a b = true)) :
    (registerAll DB.empty bodies now).soldiers.map Soldier.soldier_id
      = (List.range bodies.length).map (fun k => generateSoldierId (k + 1)) := by
  have h := registerAll_go now bodies [] []
    (by intro s hs; simp at hs) (by intro s hs; simp at hs) hok hpair
  show (registerAll ⟨[], []⟩ bodies now).soldiers.map Soldier.soldier_id = _
  rw [h]
  simp only [List.nil_append, List.length_nil]
  rw [expectedRows_map_sid]
  have h2 : (fun k => generateSoldierId (0 + k + 1))
      = fun k => generateSoldierId (k + 1) := by
    funext k
    rw [Nat.zero_add]
  rw [h2]

/-- Witness for C1: two concrete registrations from the empty store yield
exactly `CMJ00001` and `CMJ00002`. -/
theorem C1_sequential_registration_ids_witness :
    (∀ b ∈ [sampleBody "Ali Hassan", sampleBody "Badr Omar"],
        rowChecksOk (insertedFields b) = true) ∧
    List.Pairwise (fun a b => telDisjoint a b = true)
      [sampleBody "Ali Hassan", sampleBody "Badr Omar"] ∧
    (registerAll DB.empty [sampleBody "Ali Hassan", sampleBody "Badr Omar"]
        sampleTime).soldiers.map Soldier.soldier_id
      = (List.range 2).map (fun k => generateSoldierId (k + 1)) :=
  ⟨by decide, by decide,
    C1_sequential_registration_ids [sampleBody "Ali Hassan", sampleBody "Badr Omar"]
      sampleTime (by decide) (by decide)⟩

/-! ## Claim C2 -/

/-- C2: when the submitted template exactly equals (string equality, not
biometric scoring) the stored `fingerprint_data` of some soldier,
`POST /verify-fingerprint` appends exactly one row to the
`fingerprint_verifications` log and returns a response echoing that
soldier's `rank_position`, `net_salary` and `horin_platoon`. -/
theorem C2_verify_match_logs_one_row (db : DB) (t : String) (now : Timestamp)
    (h : ∃ s ∈ db.soldiers, s.fields.fingerprint_data = some t) :
    ∃ s, s ∈ db.soldiers ∧ s.fields.fingerprint_data = some t ∧
      verifyFingerprint db (some t) now
        = ({ db with verifications := db.verifications ++ [mkVerificationRow s now] },
            .verified s.soldier_id s.fields.full_names s.fields.rank_position
              s.fields.net_salary s.fields.horin_platoon) := by
  cases hfil : db.soldiers.filter (fingerprintMatches (some t)) with
  | nil =>
    exfalso
    obtain ⟨s, hs, hst⟩ := h
    have hmem : s ∈ db.soldiers.filter (fingerprintMatches (some t)) :=
      List.mem_filter.mpr ⟨hs, by simp [fingerprintMatches, hst]⟩
    rw [hfil] at hmem
    simp at hmem
  | cons s rest =>
    have hmem : s ∈ db.soldiers.filter (fingerprintMatches (some t)) :=
      hfil ▸ List.mem_cons_self s rest
    have hs := List.mem_filter.mp hmem
    refine ⟨s, hs.1, ?_, ?_⟩
    · have h2 := hs.2
      cases hd : s.fields.fingerprint_data with
      | none => simp [fingerprintMatches, hd] at h2
      | some d =>
        simp only [fingerprintMatches, hd, beq_iff_eq] at h2
        rw [h2]
    · simp only [verifyFingerprint, hfil]

/-- Witness for C2: verifying `sampleSoldier`'s template against
`sampleDB` logs one row and echoes rank, salary and platoon. -/
theorem C2_verify_match_logs_one_row_witness :
    (∃ s ∈ sampleDB.soldiers, s.fields.fingerprint_data = some "TPL-1") ∧
    ∃ s, s ∈ sampleDB.soldiers ∧ s.fields.fingerprint_data = some "TPL-1" ∧
      verifyFingerprint sampleDB (some "TPL-1") sampleTime
        = ({ sampleDB with
              verifications := sampleDB.verifications ++ [mkVerificationRow s sampleTime] },
            .verified s.soldier_id s.fields.full_names s.fields.rank_position
              s.fields.net_salary s.fields.horin_platoon) :=
  ⟨by decide, C2_verify_match_logs_one_row sampleDB "TPL-1" sampleTime (by decide)⟩

/-! ## Claim C3 -/

/-- C3: when the submitted template equals no soldier's stored
`fingerprint_data`, `POST /verify-fingerprint` answers 404 and the store —
in particular the `fingerprint_verifications` log — is unchanged. -/
theorem C3_verify_no_match_404 (db : DB) (t : String) (now : Timestamp)
    (h : ∀ s ∈ db.soldiers, s.fields.fingerprint_data ≠ some t) :
    verifyFingerprint db (some t) now = (db, .notFound) ∧
      (verifyFingerprint db (some t) now).1.verifications = db.verifications ∧
      VerifyResult.status .notFound = 404 := by
  have hfil : db.soldiers.filter (fingerprintMatches (some t)) = [] := by
    rw [List.filter_eq_nil_iff]
    intro s hs hcontra
    cases hd : s.fields.fingerprint_data with
    | none => simp [fingerprintMatches, hd] at hcontra
    | some d =>
      simp only [fingerprintMatches, hd, beq_iff_eq] at hcontra
      exact h s hs (by rw [hd, hcontra])
  have hrun : verifyFingerprint db (some t) now = (db, .notFound) := by
    simp only [verifyFingerprint, hfil]
  exact ⟨hrun, by rw [hrun], rfl⟩

/-- Witness for C3: a template enrolled for nobody is rejected with the
store untouched. -/
theorem C3_verify_no_match_404_witness :
    (∀ s ∈ sampleDB.soldiers, s.fields.fingerprint_data ≠ some "TPL-MISSING") ∧
    (verifyFingerprint sampleDB (some "TPL-MISSING") sampleTime
        = (sampleDB, .notFound) ∧
      (verifyFingerprint sampleDB (some "TPL-MISSING") sampleTime).1.verifications
        = sampleDB.verifications ∧
      VerifyResult.status .notFound = 404) :=
  ⟨by decide, C3_verify_no_match_404 sampleDB "TPL-MISSING" sampleTime (by decide)⟩

/-! ## Claim C9 -/

/-- C9: a `POST /verify-fingerprint` request whose body omits
`fingerprint_template` (SQL NULL) always answers 404 and writes no log
row — for every store, in particular stores where some soldier's stored
`fingerprint_data` is itself NULL, since SQL `=` never matches NULL. -/
theorem C9_null_template_404 (db : DB) (now : Timestamp) :
    verifyFingerprint db none now = (db, .notFound) ∧
      (verifyFingerprint db none now).1.verifications = db.verifications ∧
      VerifyResult.status .notFound = 404 := by
  have hfil : db.soldiers.filter (fingerprintMatches none) = [] := by
    rw [List.filter_eq_nil_iff]
    intro s _
    cases hd : s.fields.fingerprint_data with
    | none => simp [fingerprintMatches, hd]
    | some d => simp [fingerprintMatches, hd]
  have hrun : verifyFingerprint db none now = (db, .notFound) := by
    simp only [verifyFingerprint, hfil]
  exact ⟨hrun, by rw [hrun], rfl⟩

/-! ## Claim C5 -/

/-- C5: for an identifier no stored row carries, the single-row fetch,
the full-record update and the delete each answer 404 and leave the
store unchanged (`getSoldierById` is a pure read; the other two return
the store they were given). -/
theorem C5_missing_id_404 (db : DB) (id : String) (b : SoldierBody) (now : Timestamp)
    (h : ∀ s ∈ db.soldiers, s.soldier_id ≠ id) :
    getSoldierById db id = .missing ∧
    putSoldier db id b now = (db, .missing) ∧
    deleteSoldier db id = (db, .missing) ∧
    FetchResult.status .missing = 404 ∧
    UpdateResult.status .missing = 404 ∧
    DeleteResult.status .missing = 404 := by
  have hfil : db.soldiers.filter (fun s => s.soldier_id == id) = [] := by
    rw [List.filter_eq_nil_iff]
    intro s hs
    simp [h s hs]
  refine ⟨?_, ?_, ?_, rfl, rfl, rfl⟩
  · simp only [getSoldierById, hfil]
  · simp only [putSoldier, hfil]
  · simp only [deleteSoldier, hfil]

/-- Witness for C5 at an identifier absent from `sampleDB`. -/
theorem C5_missing_id_404_witness :
    (∀ s ∈ sampleDB.soldiers, s.soldier_id ≠ "CMJ09999") ∧
    (getSoldierById sampleDB "CMJ09999" = .missing ∧
      putSoldier sampleDB "CMJ09999" (sampleBody "Nobody") sampleTime
        = (sampleDB, .missing) ∧
      deleteSoldier sampleDB "CMJ09999" = (sampleDB, .missing) ∧
      FetchResult.status .missing = 404 ∧
      UpdateResult.status .missing = 404 ∧
      DeleteResult.status .missing = 404) :=
  ⟨by decide,
    C5_missing_id_404 sampleDB "CMJ09999" (sampleBody "Nobody") sampleTime (by decide)⟩

/-! ## Claim C4 -/

/-- Counterexample to C4 as stated: in a store whose (only, matched)
log row has a NULL `net_salary` — reachable by registering a soldier
without a salary and verifying them — the JS reduction computes
`0 + parseFloat(null) = NaN` (modelled `none`), which is not the
numeric sum of the matched rows' salaries. -/
theorem C4_total_salary_counterexample :
    (monthlyPayroll ⟨[], [nullSalaryVerification]⟩ (some 5) (some 2024) 1 2000).soldiers
      = [nullSalaryVerification] ∧
    (monthlyPayroll ⟨[], [nullSalaryVerification]⟩ (some 5) (some 2024) 1 2000).total_salary
      = none ∧
    some (specSalarySum [nullSalaryVerification])
      ≠ (monthlyPayroll ⟨[], [nullSalaryVerification]⟩ (some 5) (some 2024) 1 2000).total_salary := by
  decide

/-- C4 (amended): for every requested month and year (defaulting to the
current ones when absent), the payroll report's rows are exactly the log
rows whose `verified_at` falls in that month and year, ordered by
`horin_platoon` then `rank_position`; and provided every matched row has
a non-NULL `net_salary`, `total_salary` equals their sum (a NULL salary
instead turns the JS reduction into NaN, cf. the counterexample). -/
theorem C4_monthly_payroll (db : DB) (month year : Option Nat) (nowMonth nowYear : Nat)
    (hsal : ∀ r ∈ db.verifications.filter
        (inMonth (month.getD nowMonth) (year.getD nowYear)), r.net_salary ≠ none) :
    (monthlyPayroll db month year nowMonth nowYear).month = month.getD nowMonth ∧
    (monthlyPayroll db month year nowMonth nowYear).year = year.getD nowYear ∧
    List.Perm (monthlyPayroll db month year nowMonth nowYear).soldiers
      (db.verifications.filter (inMonth (month.getD nowMonth) (year.getD nowYear))) ∧
    List.Pairwise (fun u v => payrollLe u v = true)
      (monthlyPayroll db month year nowMonth nowYear).soldiers ∧
    (monthlyPayroll db month year nowMonth nowYear).total_salary
      = some (specSalarySum (db.verifications.filter
          (inMonth (month.getD nowMonth) (year.getD nowYear)))) := by
  have hperm : List.Perm
      (sortBy payrollLe (db.verifications.filter
        (inMonth (month.getD nowMonth) (year.getD nowYear))))
      (db.verifications.filter (inMonth (month.getD nowMonth) (year.getD nowYear))) :=
    sortBy_perm _ _
  refine ⟨rfl, rfl, hperm, sortBy_pairwise _ payrollLe_trans payrollLe_total _, ?_⟩
  have hsal2 : ∀ r ∈ sortBy payrollLe (db.verifications.filter
      (inMonth (month.getD nowMonth) (year.getD nowYear))), r.net_salary ≠ none :=
    fun r hr => hsal r (hperm.mem_iff.mp hr)
  show (sortBy payrollLe (db.verifications.filter
      (inMonth (month.getD nowMonth) (year.getD nowYear)))).foldl
        (fun acc r => jsAddSalary acc r.net_salary) (some 0) = _
  rw [foldl_jsAddSalary _ 0 hsal2, specSalarySum_perm hperm, Int.zero_add]

/-- Witness for C4 on a store with one matched, salaried log row. -/
theorem C4_monthly_payroll_witness :
    (∀ r ∈ (DB.mk [] [sampleVerification]).verifications.filter (inMonth 5 2024),
        r.net_salary ≠ none) ∧
    ((monthlyPayroll ⟨[], [sampleVerification]⟩ (some 5) (some 2024) 1 2000).month = 5 ∧
      (monthlyPayroll ⟨[], [sampleVerification]⟩ (some 5) (some 2024) 1 2000).year = 2024 ∧
      List.Perm (monthlyPayroll ⟨[], [sampleVerification]⟩ (some 5) (some 2024) 1 2000).soldiers
        ((DB.mk [] [sampleVerification]).verifications.filter (inMonth 5 2024)) ∧
      List.Pairwise (fun u v => payrollLe u v = true)
        (monthlyPayroll ⟨[], [sampleVerification]⟩ (some 5) (some 2024) 1 2000).soldiers ∧
      (monthlyPayroll ⟨[], [sampleVerification]⟩ (some 5) (some 2024) 1 2000).total_salary
        = some (specSalarySum
            ((DB.mk [] [sampleVerification]).verifications.filter (inMonth 5 2024)))) :=
  ⟨by decide,
    C4_monthly_payroll ⟨[], [sampleVerification]⟩ (some 5) (some 2024) 1 2000 (by decide)⟩

/-! ## Claim C6 -/

/-- Counterexample to C6 as stated: submitting the update body
`emptyGunBody`, whose `gun_number` is the empty string, succeeds (HTTP
200) but stores NULL for `gun_number` (`gun_number || null` in JS treats
`""` as falsy), so not every stored field equals the submitted value. -/
theorem C6_full_update_counterexample :
    (putSoldier sampleDB "CMJ00001" emptyGunBody sampleTime).2
      = .updated (applyUpdate emptyGunBody sampleTime sampleSoldier) ∧
    UpdateResult.status (putSoldier sampleDB "CMJ00001" emptyGunBody sampleTime).2 = 200 ∧
    emptyGunBody.gun_number = some "" ∧
    (putSoldier sampleDB "CMJ00001" emptyGunBody sampleTime).1.soldiers.map
      (fun s => s.fields.gun_number) = [none] := by
  decide

/-- C6 (amended): after a successful `PUT /api/soldiers/:id`, the
returned row and every stored row carrying that identifier have every
data column equal to the submitted value — except `gun_number`, which is
stored as `jsOrNull` of the submitted value (the empty string becomes
NULL) — with `updated_at` refreshed; rows with other identifiers are
untouched. -/
theorem C6_full_update (db : DB) (id : String) (b : SoldierBody) (now : Timestamp)
    (db2 : DB) (r : Soldier)
    (h : putSoldier db id b now = (db2, .updated r)) :
    (r.fields.full_names = b.full_names ∧
     r.fields.date_of_birth = b.date_of_birth ∧
     r.fields.gender = b.gender ∧
     r.fields.photo = b.photo ∧
     r.fields.fingerprint_data = b.fingerprint_data ∧
     r.fields.rank_position = b.rank_position ∧
     r.fields.date_of_enlistment = b.date_of_enlistment ∧
     r.fields.horin_platoon = b.horin_platoon ∧
     r.fields.horin_commander = b.horin_commander ∧
     r.fields.net_salary = b.net_salary ∧
     r.fields.tel_number = b.tel_number ∧
     r.fields.clan = b.clan ∧
     r.fields.guarantor_name = b.guarantor_name ∧
     r.fields.guarantor_phone = b.guarantor_phone ∧
     r.fields.emergency_contact_name = b.emergency_contact_name ∧
     r.fields.emergency_contact_phone = b.emergency_contact_phone ∧
     r.fields.home_address = b.home_address ∧
     r.fields.blood_group = b.blood_group ∧
     r.fields.gun_number = jsOrNull b.gun_number ∧
     r.fields.status = b.status ∧
     r.updated_at = now) ∧
    (∀ s ∈ db2.soldiers, s.soldier_id = id →
      s.fields = updatedFields b ∧ s.updated_at = now) ∧
    (∀ s ∈ db.soldiers, s.soldier_id ≠ id → s ∈ db2.soldiers) := by
  simp only [putSoldier] at h
  split at h
  · simp at h
  · split at h
    · simp at h
    · simp only [Prod.mk.injEq, UpdateResult.updated.injEq] at h
      obtain ⟨hdb2, hr⟩ := h
      subst hdb2
      subst hr
      refine ⟨⟨rfl, rfl, rfl, rfl, rfl, rfl, rfl, rfl, rfl, rfl, rfl, rfl, rfl,
        rfl, rfl, rfl, rfl, rfl, rfl, rfl, rfl⟩, ?_, ?_⟩
      · intro s hs hsid
        simp only [List.mem_map] at hs
        obtain ⟨s1, hs1, hmap⟩ := hs
        by_cases hb : s1.soldier_id = id
        · rw [if_pos (by simp [hb])] at hmap
          rw [← hmap]
          exact ⟨rfl, rfl⟩
        · rw [if_neg (by simp [hb])] at hmap
          rw [← hmap] at hsid
          exact absurd hsid hb
      · intro s hs hsid
        simp only [List.mem_map]
        exact ⟨s, hs, by rw [if_neg (by simp [hsid])]⟩

/-- Witness for C6: a concrete successful update of `sampleSoldier`. -/
theorem C6_full_update_witness :
    putSoldier sampleDB "CMJ00001" (sampleBody "Cali Noor") sampleTime
      = ((putSoldier sampleDB "CMJ00001" (sampleBody "Cali Noor") sampleTime).1,
          .updated (applyUpdate (sampleBody "Cali Noor") sampleTime sampleSoldier)) ∧
    (applyUpdate (sampleBody "Cali Noor") sampleTime sampleSoldier).fields.full_names
      = (sampleBody "Cali Noor").full_names := by
  constructor
  · decide
  · exact (C6_full_update sampleDB "CMJ00001" (sampleBody "Cali Noor") sampleTime
      (putSoldier sampleDB "CMJ00001" (sampleBody "Cali Noor") sampleTime).1
      (applyUpdate (sampleBody "Cali Noor") sampleTime sampleSoldier) (by decide)).1.1

/-! ## The ILIKE / substring bridge -/

theorem plainChar_spec (c : Char) (hc : plainChar c = true) :
    (c == '%') = false ∧ (c == '\\') = false ∧ (c == '_') = false := by
  rw [plainChar] at hc
  simp only [Bool.and_eq_true, Bool.not_eq_true'] at hc
  exact ⟨hc.1.1, hc.2, hc.1.2⟩

theorem ilikeMatch_pct_nil : ∀ t : List Char, ilikeMatch ['%'] t = true := by
  intro t
  induction t with
  | nil => rfl
  | cons c ts ih =>
    simp only [ilikeMatch, beq_self_eq_true, if_true, tailsOf, List.any_cons] at ih ⊢
    simp [ih]

theorem ilikeMatch_plain_nil (c : Char) (ps : List Char) (hc : plainChar c = true) :
    ilikeMatch (c :: ps) [] = false := by
  obtain ⟨h1, h2, h3⟩ := plainChar_spec c hc
  rw [ilikeMatch.eq_def]
  simp [h1, h2, h3]

theorem ilikeMatch_plain_cons (c : Char) (ps : List Char) (d : Char) (ts : List Char)
    (hc : plainChar c = true) :
    ilikeMatch (c :: ps) (d :: ts) = ((c == d) && ilikeMatch ps ts) := by
  obtain ⟨h1, h2, h3⟩ := plainChar_spec c hc
  rw [ilikeMatch.eq_def]
  simp [h1, h2, h3]

theorem ilikeMatch_plain_append_pct : ∀ (q t : List Char), q.all plainChar = true →
    ilikeMatch (q ++ ['%']) t = leadsWith q t := by
  intro q
  induction q with
  | nil =>
    intro t _
    rw [List.nil_append, ilikeMatch_pct_nil t]
    rfl
  | cons c q2 ih =>
    intro t hall
    simp only [List.all_cons, Bool.and_eq_true] at hall
    cases t with
    | nil =>
      rw [List.cons_append, ilikeMatch_plain_nil c _ hall.1]
      rfl
    | cons d ts =>
      rw [List.cons_append, ilikeMatch_plain_cons c _ d ts hall.1, ih ts hall.2]
      rfl

theorem ilikeMatch_pct_wrap (q t : List Char) (hall : q.all plainChar = true) :
    ilikeMatch ('%' :: (q ++ ['%'])) t = charsContain t q := by
  rw [ilikeMatch.eq_def]
  simp only [beq_self_eq_true]
  rw [if_pos trivial]
  rw [funext (fun s => ilikeMatch_plain_append_pct q s hall)]
  rfl

/-! ## Claim C7 -/

/-- Counterexample to C7 as stated: the submitted query is spliced into an
ILIKE pattern, so the wildcard query `_` returns `sampleSoldier` although
neither the identifier `CMJ00001` nor the name `Ali Hassan` contains an
underscore as a substring. -/
theorem C7_search_wildcard_counterexample :
    searchSoldiers sampleDB (some "_") = .results [sampleSoldier] ∧
    specSearchMatches "_" sampleSoldier = false := by
  decide

/-- C7 (amended): the list endpoint returns all soldier rows ordered by
identifier, and a search request with no query parameter answers 400; the
search endpoint matches `soldier_id`/`full_names` against the ILIKE
pattern `%query%`, which — for queries free of the LIKE wildcard and
escape characters `%`, `_`, `\` — returns exactly the rows whose
identifier or name contains the query as a case-insensitive substring,
ordered by identifier. -/
theorem C7_list_and_search (db : DB) (q : String)
    (hplain : plainQuery q = true) (hq : q ≠ "") :
    List.Perm (getSoldiers db) db.soldiers ∧
    List.Pairwise (fun a b => soldierIdLe a b = true) (getSoldiers db) ∧
    searchSoldiers db none = .badRequest ∧
    SearchResult.status .badRequest = 400 ∧
    searchSoldiers db (some q)
      = .results (sortBy soldierIdLe (db.soldiers.filter (specSearchMatches q))) ∧
    List.Perm (sortBy soldierIdLe (db.soldiers.filter (specSearchMatches q)))
      (db.soldiers.filter (specSearchMatches q)) ∧
    List.Pairwise (fun a b => soldierIdLe a b = true)
      (sortBy soldierIdLe (db.soldiers.filter (specSearchMatches q))) := by
  refine ⟨sortBy_perm _ _, sortBy_pairwise _ soldierIdLe_trans soldierIdLe_total _,
    rfl, rfl, ?_, sortBy_perm _ _,
    sortBy_pairwise _ soldierIdLe_trans soldierIdLe_total _⟩
  have hfn : soldierMatchesSearch q = specSearchMatches q := by
    funext s
    rw [soldierMatchesSearch, specSearchMatches,
      ilikeMatch_pct_wrap (lowerChars q) (lowerChars s.soldier_id) hplain,
      ilikeMatch_pct_wrap (lowerChars q) (lowerChars s.fields.full_names) hplain]
  simp only [searchSoldiers, if_neg hq, hfn]

/-- Witness for C7 at the wildcard-free query `ali`, which matches
`Ali Hassan` case-insensitively. -/
theorem C7_list_and_search_witness :
    plainQuery "ali" = true ∧ ("ali" : String) ≠ "" ∧
    searchSoldiers sampleDB (some "ali")
      = .results (sortBy soldierIdLe (sampleDB.soldiers.filter (specSearchMatches "ali"))) ∧
    searchSoldiers sampleDB (some "ali") = .results [sampleSoldier] := by
  refine ⟨by decide, by decide, ?_, by decide⟩
  exact (C7_list_and_search sampleDB "ali" (by decide) (by decide)).2.2.2.2.1

/-! ## Claim C8 -/

theorem postSoldier_verifications (db : DB) (b : SoldierBody) (now : Timestamp) :
    (postSoldier db b now).1.verifications = db.verifications := by
  simp only [postSoldier]
  split <;> rfl

theorem putSoldier_verifications (db : DB) (id : String) (b : SoldierBody)
    (now : Timestamp) :
    (putSoldier db id b now).1.verifications = db.verifications := by
  simp only [putSoldier]
  split
  · rfl
  · split <;> rfl

theorem deleteSoldier_verifications (db : DB) (id : String) :
    (deleteSoldier db id).1.verifications = db.verifications := by
  simp only [deleteSoldier]
  split <;> rfl

theorem enrollFingerprint_verifications (db : DB) (sid : String)
    (captured : Option String) :
    (enrollFingerprint db sid captured).verifications = db.verifications := by
  simp only [enrollFingerprint]
  split
  · rfl
  · split <;> rfl

/-- C8: the `fingerprint_verifications` log is append-only.  Every request
leaves the existing rows in place as a prefix (`new = old ++ tail`) — no
operation updates or deletes a log row — and the appended tail holds at
most one row, a row being appended exactly on a successful verification
match. -/
theorem C8_log_append_only (db : DB) (op : Op) :
    ∃ tail, (applyOp db op).verifications = db.verifications ++ tail ∧
      tail.length ≤ 1 ∧ (tail ≠ [] → verificationMatched db op) := by
  cases op with
  | setupSoldiers => exact ⟨[], by simp [applyOp], by simp, fun h => absurd rfl h⟩
  | setupVerification => exact ⟨[], by simp [applyOp], by simp, fun h => absurd rfl h⟩
  | register b now =>
    exact ⟨[], by simp [applyOp, postSoldier_verifications], by simp,
      fun h => absurd rfl h⟩
  | verifyTemplate tmpl now =>
    cases hfil : db.soldiers.filter (fingerprintMatches tmpl) with
    | nil =>
      refine ⟨[], ?_, by simp, fun h => absurd rfl h⟩
      simp [applyOp, verifyFingerprint, hfil]
    | cons s rest =>
      refine ⟨[mkVerificationRow s now], ?_, by simp, fun _ => ?_⟩
      · simp [applyOp, verifyFingerprint, hfil]
      · have hmem := List.mem_filter.mp (hfil ▸ List.mem_cons_self s rest)
        exact ⟨s, hmem.1, hmem.2⟩
  | verifyDevice scanOk devMatch now =>
    cases scanOk with
    | false =>
      refine ⟨[], ?_, by simp, fun h => absurd rfl h⟩
      simp [applyOp, verifyLive]
    | true =>
      cases hfil : db.soldiers.filter (liveMatches devMatch) with
      | nil =>
        refine ⟨[], ?_, by simp, fun h => absurd rfl h⟩
        simp [applyOp, verifyLive, hfil]
      | cons s rest =>
        refine ⟨[mkVerificationRow s now], ?_, by simp, fun _ => ?_⟩
        · simp [applyOp, verifyLive, hfil]
        · have hmem := List.mem_filter.mp (hfil ▸ List.mem_cons_self s rest)
          exact ⟨rfl, s, hmem.1, hmem.2⟩
  | enroll sid captured =>
    exact ⟨[], by simp [applyOp, enrollFingerprint_verifications], by simp,
      fun h => absurd rfl h⟩
  | update id b now =>
    exact ⟨[], by simp [applyOp, putSoldier_verifications], by simp,
      fun h => absurd rfl h⟩
  | delete id =>
    exact ⟨[], by simp [applyOp, deleteSoldier_verifications], by simp,
      fun h => absurd rfl h⟩
  | resetDatabase => exact ⟨[], by simp [applyOp], by simp, fun h => absurd rfl h⟩
  | readOnly => exact ⟨[], by simp [applyOp], by simp, fun h => absurd rfl h⟩

/-! ## Claim C10 -/

/-- C10: after registering two soldiers and deleting `CMJ00001` — a
reachable request sequence — one row (`CMJ00002`) remains, so the next
registration derives `CMJ00002` again from row count plus one although it
is still stored: the INSERT hits the primary-key conflict, the handler
answers 500, and no row is added (the store is returned unchanged). -/
theorem C10_count_collision_after_delete :
    Reachable dbAfterDelete ∧
    dbAfterDelete.soldiers.map Soldier.soldier_id = ["CMJ00002"] ∧
    pkConflict dbAfterDelete.soldiers
      (generateSoldierId (dbAfterDelete.soldiers.length + 1)) = true ∧
    postSoldier dbAfterDelete (sampleBody "Cali Noor") sampleTime
      = (dbAfterDelete, .dbError) ∧
    RegisterResult.status .dbError = 500 := by
  refine ⟨?_, by decide, by decide, by decide, rfl⟩
  exact Reachable.step _ _ (Reachable.step _ _ (Reachable.step _ _ Reachable.empty))

end BiometricDB
